import Mathlib

/-
Verification of the CAN-bus device session and channel-polling lifecycle
manager of the usb_can_tool repository.

The Rust sources (src/can/cantypes.rs, src/can/canbus.rs, src/main.rs) are
shallowly embedded here.  Native driver calls (the ControlCAN / VCI family
and the PCANBasic family) are modelled as an explicit driver oracle record:
each native entry point becomes a field giving the status code (and output
data) the driver would return for given arguments.  Each lifecycle
operation of `CanApp` / `PcanApp` is translated into a pure function from
the driver oracle and the relevant session state to a record holding the
operation's result, the log records it sent, the driver calls it issued
and the session state it leaves behind.  Log records are built with the
same literal texts as the Rust `format!` calls.
-/

set_option autoImplicit false

namespace UsbCanTool

/-- Success sentinel of the VCI / ControlCAN driver (`const SUCCESS: i32 = 1`). -/
def SUCCESS : Int := 1

/-- Success sentinel of the PCANBasic driver (`const PCAN_ERROR_OK: u32 = 0`). -/
def PCAN_ERROR_OK : Nat := 0

/-- Baud rates of the ControlCAN (VCI) adapter family (`enum VciCanBaudRate`). -/
inductive VciCanBaudRate where
  | Baud10K
  | Baud20K
  | Baud33_33K
  | Baud40K
  | Baud50K
  | Baud66_66K
  | Baud80K
  | Baud83_33K
  | Baud100K
  | Baud125K
  | Baud200K
  | Baud250K
  | Baud400K
  | Baud500K
  | Baud666K
  | Baud800K
  | Baud1M
deriving DecidableEq

/-- `VciCanBaudRate::to_timing_values`: the fixed (timing0, timing1) encoding
of each rate. -/
def VciCanBaudRate.to_timing_values : VciCanBaudRate → Nat × Nat
  | .Baud10K => (0x31, 0x1C)
  | .Baud20K => (0x18, 0x1C)
  | .Baud33_33K => (0x09, 0x6F)
  | .Baud40K => (0x87, 0xFF)
  | .Baud50K => (0x09, 0x1C)
  | .Baud66_66K => (0x04, 0x6F)
  | .Baud80K => (0x83, 0xFF)
  | .Baud83_33K => (0x03, 0x6F)
  | .Baud100K => (0x04, 0x1C)
  | .Baud125K => (0x03, 0x1C)
  | .Baud200K => (0x81, 0xFA)
  | .Baud250K => (0x01, 0x1C)
  | .Baud400K => (0x80, 0xFA)
  | .Baud500K => (0x00, 0x1C)
  | .Baud666K => (0x80, 0xB6)
  | .Baud800K => (0x00, 0x16)
  | .Baud1M => (0x00, 0x14)

/-- `VciCanBaudRate::from_u32`: numeric rate (in kbit/s) to enumerated rate;
unmatched values give `none`. -/
def VciCanBaudRate.from_u32 (value : Nat) : Option VciCanBaudRate :=
  if value = 10 then some .Baud10K
  else if value = 20 then some .Baud20K
  else if value = 33 then some .Baud33_33K
  else if value = 40 then some .Baud40K
  else if value = 50 then some .Baud50K
  else if value = 66 then some .Baud66_66K
  else if value = 80 then some .Baud80K
  else if value = 83 then some .Baud83_33K
  else if value = 100 then some .Baud100K
  else if value = 125 then some .Baud125K
  else if value = 200 then some .Baud200K
  else if value = 250 then some .Baud250K
  else if value = 400 then some .Baud400K
  else if value = 500 then some .Baud500K
  else if value = 666 then some .Baud666K
  else if value = 800 then some .Baud800K
  else if value = 1000 then some .Baud1M
  else none

/-- Debug rendering of a `VciCanBaudRate` (Rust derive(Debug), used in log texts). -/
def VciCanBaudRate.debugStr : VciCanBaudRate → String
  | .Baud10K => "Baud10K"
  | .Baud20K => "Baud20K"
  | .Baud33_33K => "Baud33_33K"
  | .Baud40K => "Baud40K"
  | .Baud50K => "Baud50K"
  | .Baud66_66K => "Baud66_66K"
  | .Baud80K => "Baud80K"
  | .Baud83_33K => "Baud83_33K"
  | .Baud100K => "Baud100K"
  | .Baud125K => "Baud125K"
  | .Baud200K => "Baud200K"
  | .Baud250K => "Baud250K"
  | .Baud400K => "Baud400K"
  | .Baud500K => "Baud500K"
  | .Baud666K => "Baud666K"
  | .Baud800K => "Baud800K"
  | .Baud1M => "Baud1M"

/-- Baud rates of the PCAN adapter family (`enum PcanBaudRate`, with its
`u16` discriminants). -/
inductive PcanBaudRate where
  | Baud1M
  | Baud800K
  | Baud500K
  | Baud250K
  | Baud125K
  | Baud100K
  | Baud95K
  | Baud83K
  | Baud50K
  | Baud47K
  | Baud33K
  | Baud20K
  | Baud10K
  | Baud5K
deriving DecidableEq

/-- `PcanBaudRate::to_u16`: the enum discriminant used by the PCAN API. -/
def PcanBaudRate.to_u16 : PcanBaudRate → Nat
  | .Baud1M => 0x0014
  | .Baud800K => 0x0016
  | .Baud500K => 0x001C
  | .Baud250K => 0x011C
  | .Baud125K => 0x031C
  | .Baud100K => 0x432F
  | .Baud95K => 0xC34E
  | .Baud83K => 0x852B
  | .Baud50K => 0x472F
  | .Baud47K => 0x1414
  | .Baud33K => 0x8B2F
  | .Baud20K => 0x532F
  | .Baud10K => 0x672F
  | .Baud5K => 0x7F7F

/-- `PcanBaudRate::from_u32`: numeric rate to enumerated rate; unmatched
values give `none`. -/
def PcanBaudRate.from_u32 (value : Nat) : Option PcanBaudRate :=
  if value = 1000 then some .Baud1M
  else if value = 800 then some .Baud800K
  else if value = 500 then some .Baud500K
  else if value = 250 then some .Baud250K
  else if value = 125 then some .Baud125K
  else if value = 100 then some .Baud100K
  else if value = 95 then some .Baud95K
  else if value = 83 then some .Baud83K
  else if value = 50 then some .Baud50K
  else if value = 47 then some .Baud47K
  else if value = 33 then some .Baud33K
  else if value = 20 then some .Baud20K
  else if value = 10 then some .Baud10K
  else if value = 5 then some .Baud5K
  else none

/-- Debug rendering of a `PcanBaudRate`. -/
def PcanBaudRate.debugStr : PcanBaudRate → String
  | .Baud1M => "Baud1M"
  | .Baud800K => "Baud800K"
  | .Baud500K => "Baud500K"
  | .Baud250K => "Baud250K"
  | .Baud125K => "Baud125K"
  | .Baud100K => "Baud100K"
  | .Baud95K => "Baud95K"
  | .Baud83K => "Baud83K"
  | .Baud50K => "Baud50K"
  | .Baud47K => "Baud47K"
  | .Baud33K => "Baud33K"
  | .Baud20K => "Baud20K"
  | .Baud10K => "Baud10K"
  | .Baud5K => "Baud5K"

/-- The numeric rates the ControlCAN GUI offers (`CONTROL_CAN_BAUD_RATES`
in main.rs) — exactly the supported set of `VciCanBaudRate.from_u32`. -/
def CONTROL_CAN_BAUD_RATES : List Nat :=
  [10, 20, 33, 40, 50, 66, 80, 83, 100, 125, 200, 250, 400, 500, 666, 800, 1000]

/-- The numeric rates the PCAN GUI offers (`PCAN_BAUD_RATES` in main.rs) —
exactly the supported set of `PcanBaudRate.from_u32`. -/
def PCAN_BAUD_RATES : List Nat :=
  [5, 10, 20, 33, 47, 50, 83, 95, 100, 125, 250, 500, 800, 1000]

/-- Uppercase hexadecimal rendering of a natural number, mirroring Rust's
`{:X}` format specifier. -/
def hexUpper (n : Nat) : String :=
  String.mk ((Nat.toDigits 16 n).map Char.toUpper)

/-- Whether the first character list leads (is an initial segment of) the
second. -/
def charsLead : List Char → List Char → Bool
  | [], _ => true
  | _ :: _, [] => false
  | a :: as, b :: bs => (a == b) && charsLead as bs

/-- Whether `pat` occurs contiguously anywhere in the character list. -/
def charsFind (pat : List Char) : List Char → Bool
  | [] => pat.isEmpty
  | b :: rest => charsLead pat (b :: rest) || charsFind pat rest

/-- Substring test: `strContains s pat` holds when `pat` occurs in `s`.
Used to state what a log or error text identifies. -/
def strContains (s pat : String) : Bool :=
  charsFind pat.data s.data

/-- `struct VciInitConfig` (cantypes.rs): the per-channel init parameters
passed to `VCI_InitCAN`. -/
structure VciInitConfig where
  acc_code : Nat
  acc_mask : Nat
  reserved : Nat
  filter : Nat
  timing0 : Nat
  timing1 : Nat
  mode : Nat
deriving DecidableEq

/-- The config `CanApp::init_channel` builds for a baud rate (canbus.rs
lines 102-111). -/
def mkVciInitConfig (baud_rate : VciCanBaudRate) : VciInitConfig :=
  { acc_code := 0
    acc_mask := 0xFFFFFFFF
    reserved := 0
    filter := 1
    timing0 := baud_rate.to_timing_values.1
    timing1 := baud_rate.to_timing_values.2
    mode := 0 }

/-- `struct VciCanObj` (cantypes.rs), restricted to the fields the poller
reads: arbitration id, driver-reported payload length and the fixed 8-byte
payload array (modelled as a list, length 8 for a driver-filled struct). -/
structure VciCanObj where
  id : Nat
  data_len : Nat
  data : List Nat
deriving DecidableEq

/-- Oracle for the ControlCAN native driver: each field gives the status
(and output data) the corresponding `VCI_*` entry point returns.  The
device type and index are fixed per `CanApp`, so they are left implicit. -/
structure VciDriver where
  open_status : Int
  init_status : Nat → VciInitConfig → Int
  start_status : Nat → Int
  close_status : Int
  board_status : Int
  board_serial : String
  board_fw : Nat

/-- Log text of `close_device` (canbus.rs line 184). -/
def vciCloseMsg (status : Int) : String :=
  "Device closed, Status: " ++ toString status

/-- Error text of a failed `open_device_unsafe` (canbus.rs line 94). -/
def vciOpenFailMsg (status : Int) : String :=
  "Device open failed, Error Code: " ++ toString status

/-- Error text of a failed `init_channel` (canbus.rs line 115). -/
def vciInitFailMsg (channel : Nat) : String :=
  "CAN Ch " ++ toString channel ++ " initialization failed"

/-- Log text after a successful channel init (canbus.rs lines 151-154). -/
def vciInitOkMsg (channel : Nat) (baud_rate : VciCanBaudRate) : String :=
  "CAN Ch " ++ toString channel ++ " initialized (BaudRate: " ++ baud_rate.debugStr ++ ")"

/-- Log text of a successful board read (canbus.rs lines 166-169). -/
def vciBoardInfoMsg (serial : String) (fw : Nat) : String :=
  "Board info: Serial=" ++ serial ++ ", Firmware=" ++ toString fw

/-- Result of `CanApp::close_device`: the log record sent and the stored
`is_can_initialized` value; `closeCalls` counts `vci_close_device`
invocations (always one). -/
structure VciCloseOut where
  log : List String
  is_can_initialized : Bool
  closeCalls : Nat
deriving DecidableEq

/-- `CanApp::close_device` (canbus.rs lines 181-187): unconditionally calls
`vci_close_device`, logs the native status, stores `is_can_initialized :=
false`.  The prior flag value is irrelevant to the outcome. -/
def CanApp.close_device (d : VciDriver) (_init0 : Bool) : VciCloseOut :=
  { log := [vciCloseMsg d.close_status]
    is_can_initialized := false
    closeCalls := 1 }

/-- `CanApp::init_channel` (canbus.rs lines 101-119): builds the init
config from the baud rate and calls `vci_init_can`. -/
def CanApp.init_channel (d : VciDriver) (channel : Nat) (baud_rate : VciCanBaudRate) :
    Except String Unit :=
  if d.init_status channel (mkVciInitConfig baud_rate) ≠ SUCCESS then
    .error (vciInitFailMsg channel)
  else
    .ok ()

/-- Whether the driver reports success for initializing one channel spec. -/
def vciInitOkAt (d : VciDriver) (c : Nat × VciCanBaudRate) : Prop :=
  d.init_status c.1 (mkVciInitConfig c.2) = SUCCESS

instance (d : VciDriver) (c : Nat × VciCanBaudRate) : Decidable (vciInitOkAt d c) := by
  unfold vciInitOkAt; infer_instance

/-- Accumulated outcome of the per-channel init loop of
`CanApp::open_device` (canbus.rs lines 144-156): the loop result, the log
records it sent, the channels for which `vci_init_can` was invoked (in
order) and how many times `close_device` ran. -/
structure VciChanLoopOut where
  result : Except String Unit
  log : List String
  initCalls : List Nat
  closeCalls : Nat

/-- The per-channel init loop of `CanApp::open_device`: initialize each
channel in declaration order; on the first failure, send the error text,
run `close_device` (whose log follows) and stop with that error. -/
def vciChanLoop (d : VciDriver) : List (Nat × VciCanBaudRate) → VciChanLoopOut
  | [] => { result := .ok (), log := [], initCalls := [], closeCalls := 0 }
  | (channel, baud_rate) :: rest =>
    match CanApp.init_channel d channel baud_rate with
    | .error e =>
      { result := .error e
        log := e :: (CanApp.close_device d true).log
        initCalls := [channel]
        closeCalls := 1 }
    | .ok _ =>
      let out := vciChanLoop d rest
      { result := out.result
        log := vciInitOkMsg channel baud_rate :: out.log
        initCalls := channel :: out.initCalls
        closeCalls := out.closeCalls }

/-- Outcome of `CanApp::open_device`: its `Result`, the log records in
order, the `is_can_initialized` flag on return, the channels passed to
`vci_init_can`, the number of `vci_close_device` calls and the number of
`vci_read_board_info` calls made during the open. -/
structure VciOpenOut where
  result : Except String Unit
  log : List String
  is_can_initialized : Bool
  initCalls : List Nat
  closeCalls : Nat
  boardReadCalls : Nat

/-- `CanApp::open_device` (canbus.rs lines 135-179): open the device (a
failure is logged and returned with no close); init every channel in order
(a failure logs, closes the whole device and returns); on full success
store `is_can_initialized := true` and read board info — a board-read
failure logs "Read board failed" and returns an error, leaving the flag
true and the device open. -/
def CanApp.open_device (d : VciDriver) (can_channels : List (Nat × VciCanBaudRate))
    (init0 : Bool) : VciOpenOut :=
  if d.open_status ≠ SUCCESS then
    { result := .error (vciOpenFailMsg d.open_status)
      log := [vciOpenFailMsg d.open_status]
      is_can_initialized := init0
      initCalls := []
      closeCalls := 0
      boardReadCalls := 0 }
  else
    let lo := vciChanLoop d can_channels
    match lo.result with
    | .error e =>
      { result := .error e
        log := "Device opened successfully" :: lo.log
        is_can_initialized := false
        initCalls := lo.initCalls
        closeCalls := lo.closeCalls
        boardReadCalls := 0 }
    | .ok _ =>
      if d.board_status ≠ SUCCESS then
        { result := .error "Failed to read board info"
          log := "Device opened successfully" :: lo.log ++ ["Read board failed"]
          is_can_initialized := true
          initCalls := lo.initCalls
          closeCalls := 0
          boardReadCalls := 1 }
      else
        { result := .ok ()
          log := "Device opened successfully" :: lo.log ++
            [vciBoardInfoMsg d.board_serial d.board_fw]
          is_can_initialized := true
          initCalls := lo.initCalls
          closeCalls := 0
          boardReadCalls := 1 }

/-- Outcome of `CanApp::read_board_info` (canbus.rs lines 253-274). -/
structure VciReadOut where
  log : List String
  readCalls : Nat
  is_can_initialized : Bool
deriving DecidableEq

/-- `CanApp::read_board_info`: refuse with one error record when not
initialized (no native call); otherwise call `vci_read_board_info` and log
the board summary or the failure.  The flag is never written. -/
def CanApp.read_board_info (d : VciDriver) (init0 : Bool) : VciReadOut :=
  if !init0 then
    { log := ["Error: CAN not initialized; cannot read board info"]
      readCalls := 0
      is_can_initialized := init0 }
  else if d.board_status ≠ SUCCESS then
    { log := ["Read board failed"]
      readCalls := 1
      is_can_initialized := init0 }
  else
    { log := [vciBoardInfoMsg d.board_serial d.board_fw]
      readCalls := 1
      is_can_initialized := init0 }

/-- Rust `{:?}` rendering of a byte slice, e.g. `[1, 2, 3]`. -/
def listDebugStr (xs : List Nat) : String :=
  "[" ++ String.intercalate ", " (xs.map toString) ++ "]"

/-- The slice `data[..len]`: in bounds when `len ≤ data.length`, otherwise
the Rust slicing panics — modelled as `none`. -/
def sliceData (data : List Nat) (len : Nat) : Option (List Nat) :=
  if len ≤ data.length then some (data.take len) else none

/-- The data record a VCI poller builds from a received frame (canbus.rs
lines 229-230): `format!("CH={} ID=0x{:X}, Data={:?}", ...)` over the
slice `data[..data_len]`; `none` when the slicing is out of bounds. -/
def formatVciFrame (channel : Nat) (obj : VciCanObj) : Option String :=
  (sliceData obj.data obj.data_len).map fun d =>
    "CH=" ++ toString channel ++ " ID=0x" ++ hexUpper obj.id ++ ", Data=" ++ listDebugStr d

/-- Log text when a spawned VCI task fails its in-task start call
(canbus.rs lines 208-211). -/
def vciStartFailMsg (channel : Nat) (code : Int) : String :=
  "CAN start failed on channel " ++ toString channel ++ ", Error Code: " ++ toString code

/-- Log text after a successful in-task start call (canbus.rs line 214). -/
def vciStartedMsg (channel : Nat) : String :=
  "CAN Ch " ++ toString channel ++ " started"

/-- Final log record of a VCI poller loop (canbus.rs line 235). -/
def vciStoppedMsg (channel : Nat) : String :=
  "CAN Ch " ++ toString channel ++ " stopped receiving"

/-- Life of one spawned VCI receiving task: whether its in-task start call
succeeded, the log and data records it sent, and whether it terminated
abruptly on an out-of-bounds payload slice (`oob`). -/
structure VciPollerOut where
  channel : Nat
  started : Bool
  log : List String
  data : List String
  oob : Bool
deriving DecidableEq

/-- The VCI polling loop body over the iterations the task runs before it
observes the cleared running flag: each iteration is the `vci_receive`
result (frame count, frame).  A frame with count > 0 is formatted and sent
on the data sink; an out-of-bounds slice aborts the task. -/
def vciPollIter (channel : Nat) : List (Int × VciCanObj) → List String × Bool
  | [] => ([], false)
  | (received_frames, obj) :: rest =>
    if received_frames > 0 then
      match formatVciFrame channel obj with
      | none => ([], true)
      | some msg =>
        let out := vciPollIter channel rest
        (msg :: out.1, out.2)
    else
      vciPollIter channel rest

/-- One spawned VCI receiving task (canbus.rs lines 202-236): issue the
start call for its channel; on failure log it and exit without polling; on
success log the start, poll until the running flag clears, then log the
stopped record (unless the task aborted on an out-of-bounds slice). -/
def vciPollerRun (d : VciDriver) (channel : Nat) (iters : List (Int × VciCanObj)) :
    VciPollerOut :=
  if d.start_status channel ≠ SUCCESS then
    { channel := channel
      started := false
      log := [vciStartFailMsg channel (d.start_status channel)]
      data := []
      oob := false }
  else
    let out := vciPollIter channel iters
    { channel := channel
      started := true
      log := vciStartedMsg channel :: (if out.2 then [] else [vciStoppedMsg channel])
      data := out.1
      oob := out.2 }

/-- `CanApp::start_receiving` (canbus.rs lines 189-240): set the running
flag and spawn one task per configured channel — the start call happens
inside each task.  `sched` gives each channel's `vci_receive` results for
the iterations its loop runs before observing the cleared flag; the
returned list is the spawned tasks (one `JoinHandle` pushed per channel),
in spawn order. -/
def CanApp.start_receiving (d : VciDriver) (can_channels : List (Nat × VciCanBaudRate))
    (sched : Nat → List (Int × VciCanObj)) : List VciPollerOut :=
  can_channels.map fun c => vciPollerRun d c.1 (sched c.1)

/-- Outcome of `CanApp::stop_receiving` (canbus.rs lines 242-251): the
running flag after the store, the task outcomes observed by joining (the
handles are popped from the back), and how many handles remain. -/
structure VciStopOut where
  receiving : Bool
  joined : List VciPollerOut
  remaining : Nat

/-- Join loop of `stop_receiving`: pop each handle and join it; every
poller run is a total function, so each join completes. -/
def vciJoinAll : List VciPollerOut → List VciPollerOut
  | [] => []
  | h :: t => vciJoinAll t ++ [h]

/-- `CanApp::stop_receiving`: clear the running flag, then join every
stored handle until none remains. -/
def CanApp.stop_receiving (handles : List VciPollerOut) : VciStopOut :=
  { receiving := false
    joined := vciJoinAll handles
    remaining := 0 }

/-- `struct PcanMsg` (cantypes.rs), restricted to the fields the poller
reads: id, driver-reported length and the fixed 8-byte payload array. -/
structure PcanMsg where
  id : Nat
  len : Nat
  data : List Nat
deriving DecidableEq

/-- Oracle for the PCANBasic native driver: status codes (u32) the `CAN_*`
entry points return for given arguments, plus the API-version string
`CAN_GetValue` would write. -/
structure PcanDriver where
  uninit_status : Nat → Nat
  init_status : Nat → Nat → Nat
  set_value_status : Nat → Nat → Nat
  get_value_status : Nat → Nat → Nat
  api_version : String

/-- Error text of a failed `PcanApp::initialize_channel` (canbus.rs lines
341-344). -/
def pcanInitFailMsg (status : Nat) : String :=
  "PCAN initialization failed, error code: 0x" ++ hexUpper status

/-- Log text after a successful PCAN channel init (canbus.rs lines 409-412). -/
def pcanInitOkMsg (channel : Nat) (baud_rate : PcanBaudRate) : String :=
  "PCAN channel 0x" ++ hexUpper channel ++ " initialized with baud rate: " ++
    baud_rate.debugStr

/-- Log records of `PcanApp::configure_channel` (canbus.rs lines 351-391):
three `CAN_SetValue` calls (message filter 0x04, listen-only 0x08, bus-off
auto-reset 0x07), each logging its success or failure. -/
def pcanConfigureLog (d : PcanDriver) (channel : Nat) : List String :=
  [if d.set_value_status channel 0x04 ≠ PCAN_ERROR_OK then
      "Failed to enable message filter."
    else "PCAN message filter enabled.",
   if d.set_value_status channel 0x08 ≠ PCAN_ERROR_OK then
      "Failed to disable listen-only mode."
    else "PCAN listen-only mode disabled.",
   if d.set_value_status channel 0x07 ≠ PCAN_ERROR_OK then
      "Failed to enable Bus-Off auto-reset."
    else "Bus-Off auto-reset enabled."]

/-- Outcome of `PcanApp::open_device`: result, log, flag on return, and
how many `CAN_GetValue` board-info reads the open performed. -/
structure PcanOpenOut where
  result : Except String Unit
  log : List String
  is_can_initialized : Bool
  boardReadCalls : Nat

/-- `PcanApp::open_device` (canbus.rs lines 403-417): force-close all
channels (`CAN_Uninitialize(PCAN_NONEBUS)`, status ignored), then
`CAN_Initialize`; a failure is logged and returned with the flag
unchanged; on success log the init record, store `is_can_initialized :=
true`, run the three configure calls and return Ok.  No board-info read
happens during open. -/
def PcanApp.open_device (d : PcanDriver) (channel : Nat) (baud_rate : PcanBaudRate)
    (init0 : Bool) : PcanOpenOut :=
  let status := d.init_status channel baud_rate.to_u16
  if status ≠ PCAN_ERROR_OK then
    { result := .error (pcanInitFailMsg status)
      log := [pcanInitFailMsg status]
      is_can_initialized := init0
      boardReadCalls := 0 }
  else
    { result := .ok ()
      log := pcanInitOkMsg channel baud_rate :: pcanConfigureLog d channel
      is_can_initialized := true
      boardReadCalls := 0 }

/-- `PcanApp::close_device` (canbus.rs lines 419-425): call
`CAN_Uninitialize` on the channel, log the status, store the flag false. -/
def PcanApp.close_device (d : PcanDriver) (channel : Nat) (_init0 : Bool) : VciCloseOut :=
  { log := ["PCAN device closed, status: " ++ toString (d.uninit_status channel)]
    is_can_initialized := false
    closeCalls := 1 }

/-- `PcanApp::read_board_info` (canbus.rs lines 459-483): refuse with one
error record when not initialized (no native call); otherwise read the
API version via `CAN_GetValue(channel, PCAN_PARAMETER_API_VERSION, ...)`
and log it, or log the failure. -/
def PcanApp.read_board_info (d : PcanDriver) (channel : Nat) (init0 : Bool) : VciReadOut :=
  if !init0 then
    { log := ["Error: PCAN device not initialized; cannot read board info"]
      readCalls := 0
      is_can_initialized := init0 }
  else if d.get_value_status channel 0x00000005 = PCAN_ERROR_OK then
    { log := ["PCAN API Version: " ++ d.api_version]
      readCalls := 1
      is_can_initialized := init0 }
  else
    { log := ["Failed to read PCAN board info"]
      readCalls := 1
      is_can_initialized := init0 }

/-- The data record the PCAN poller builds from a read message (canbus.rs
lines 439-440); `none` when the slice `data[..len]` is out of bounds. -/
def formatPcanFrame (msg : PcanMsg) : Option String :=
  (sliceData msg.data msg.len).map fun d =>
    "PCAN: ID=0x" ++ hexUpper msg.id ++ ", Data=" ++ listDebugStr d

/-- First log record of the PCAN receiving task (canbus.rs line 434). -/
def pcanReadyMsg (channel : Nat) : String :=
  "PCAN channel 0x" ++ hexUpper channel ++ " ready for receiving"

/-- The PCAN polling loop body: each iteration is a `CAN_Read` result
(status, message); a read with status `PCAN_ERROR_OK` is formatted and
sent on the data sink. -/
def pcanPollIter : List (Nat × PcanMsg) → List String × Bool
  | [] => ([], false)
  | (status, msg) :: rest =>
    if status = PCAN_ERROR_OK then
      match formatPcanFrame msg with
      | none => ([], true)
      | some s =>
        let out := pcanPollIter rest
        (s :: out.1, out.2)
    else
      pcanPollIter rest

/-- Life of the single spawned PCAN receiving task. -/
structure PcanPollerOut where
  log : List String
  data : List String
  oob : Bool
deriving DecidableEq

/-- The PCAN receiving task (canbus.rs lines 433-445): log the ready
record, poll until the running flag clears, then exit — the task sends no
final record after the loop. -/
def pcanPollerRun (channel : Nat) (iters : List (Nat × PcanMsg)) : PcanPollerOut :=
  let out := pcanPollIter iters
  { log := [pcanReadyMsg channel]
    data := out.1
    oob := out.2 }

/-- ControlCAN channel-1 baud resolution in `CanGui::start_can` (main.rs
lines 135-138): `from_u32(..).unwrap_or(Baud250K)`. -/
def resolveControlCanBaud1 (b : Nat) : VciCanBaudRate :=
  (VciCanBaudRate.from_u32 b).getD .Baud250K

/-- ControlCAN channel-2 baud resolution in `CanGui::start_can` (main.rs
lines 139-143): `from_u32(..).unwrap_or(Baud1M)`. -/
def resolveControlCanBaud2 (b : Nat) : VciCanBaudRate :=
  (VciCanBaudRate.from_u32 b).getD .Baud1M

/-- PCAN baud resolution in `CanGui::start_can` (main.rs lines 157-158):
`from_u32(..).unwrap_or(Baud250K)`. -/
def resolvePcanBaud (b : Nat) : PcanBaudRate :=
  (PcanBaudRate.from_u32 b).getD .Baud250K

/-- The channel list `CanGui::start_can` builds for the ControlCAN family
(main.rs lines 133-144), paired with the log records the resolution sends
— the source sends none: an unmatched rate is substituted silently. -/
def CanGui.start_can_channels (ch1 b1 ch2 b2 : Nat) :
    List (Nat × VciCanBaudRate) × List String :=
  ([(ch1, resolveControlCanBaud1 b1), (ch2, resolveControlCanBaud2 b2)], [])

/-- Concrete VCI driver whose init call fails (native status 0) on channel
7 and succeeds elsewhere. -/
def vciFailAt7 : VciDriver :=
  { open_status := 1
    init_status := fun ch _ => if ch = 7 then 0 else 1
    start_status := fun _ => 1
    close_status := 1
    board_status := 1
    board_serial := "SN123"
    board_fw := 2 }

/-- Concrete VCI driver whose every init call fails with native status 0. -/
def vciInitAlwaysFails : VciDriver :=
  { open_status := 1
    init_status := fun _ _ => 0
    start_status := fun _ => 1
    close_status := 1
    board_status := 1
    board_serial := ""
    board_fw := 0 }

/-- Concrete VCI driver where open and every channel init succeed but the
board-info read fails (native status 0). -/
def vciBoardFails : VciDriver :=
  { open_status := 1
    init_status := fun _ _ => 1
    start_status := fun _ => 1
    close_status := 1
    board_status := 0
    board_serial := ""
    board_fw := 0 }

/-- Concrete VCI driver where everything succeeds except the start-channel
call on channel 0. -/
def vciStartFailsAt0 : VciDriver :=
  { open_status := 1
    init_status := fun _ _ => 1
    start_status := fun ch => if ch = 0 then 0 else 1
    close_status := 1
    board_status := 1
    board_serial := ""
    board_fw := 0 }

/-- Concrete PCAN driver where initialization and configuration succeed
but the board-info (`CAN_GetValue`) read fails with native status 5. -/
def pcanBoardFails : PcanDriver :=
  { uninit_status := fun _ => 0
    init_status := fun _ _ => 0
    set_value_status := fun _ _ => 0
    get_value_status := fun _ _ => 5
    api_version := "" }

/-- Concrete PCAN driver where every call succeeds; the API version string
the driver reports is "4.4.0". -/
def pcanAllOk : PcanDriver :=
  { uninit_status := fun _ => 0
    init_status := fun _ _ => 0
    set_value_status := fun _ _ => 0
    get_value_status := fun _ _ => 0
    api_version := "4.4.0" }

/-- A driver-filled VCI frame with an in-bounds reported length (3 of 8). -/
def vciFrameLen3 : VciCanObj :=
  { id := 0x123, data_len := 3, data := [1, 2, 3, 4, 5, 6, 7, 8] }

/-- A driver-filled VCI frame with an out-of-bounds reported length (9 of 8). -/
def vciFrameLen9 : VciCanObj :=
  { id := 0x123, data_len := 9, data := [1, 2, 3, 4, 5, 6, 7, 8] }

/-- A driver-filled PCAN message with an in-bounds reported length (2 of 8). -/
def pcanFrameLen2 : PcanMsg :=
  { id := 5, len := 2, data := [9, 9, 0, 0, 0, 0, 0, 0] }

/-- A driver-filled PCAN message with an out-of-bounds reported length (12 of 8). -/
def pcanFrameLen12 : PcanMsg :=
  { id := 5, len := 12, data := [9, 9, 0, 0, 0, 0, 0, 0] }

/-- When every channel init succeeds, the init loop of `open_device`
returns Ok, closes nothing, and initializes the channels in declaration
order. -/
theorem vciChanLoop_all_ok (d : VciDriver) (cs : List (Nat × VciCanBaudRate))
    (h : ∀ c ∈ cs, vciInitOkAt d c) :
    vciChanLoop d cs =
      { result := .ok ()
        log := cs.map fun c => vciInitOkMsg c.1 c.2
        initCalls := cs.map Prod.fst
        closeCalls := 0 } := by
  induction cs with
  | nil => rfl
  | cons c rest ih =>
    obtain ⟨ch, br⟩ := c
    have hc : d.init_status ch (mkVciInitConfig br) = SUCCESS := h (ch, br) (by simp)
    have ih2 := ih fun c hcm => h c (by simp [hcm])
    simp [vciChanLoop, CanApp.init_channel, hc, ih2]

/-- When the init loop of `open_device` fails, exactly one driver-level
close was issued. -/
theorem vciChanLoop_error_close (d : VciDriver) (cs : List (Nat × VciCanBaudRate))
    (e : String) (h : (vciChanLoop d cs).result = .error e) :
    (vciChanLoop d cs).closeCalls = 1 := by
  induction cs with
  | nil => simp [vciChanLoop] at h
  | cons c rest ih =>
    obtain ⟨ch, br⟩ := c
    by_cases hc : d.init_status ch (mkVciInitConfig br) = SUCCESS
    · simp [vciChanLoop, CanApp.init_channel, hc] at h ⊢
      exact ih h
    · simp [vciChanLoop, CanApp.init_channel, hc]

/-- When the channel at index `k` is the first whose init fails, the init
loop stops there: it returns that channel's error, closes the device once,
and has initialized exactly the channels up to and including index `k`. -/
theorem vciChanLoop_fail_at (d : VciDriver) (cs : List (Nat × VciCanBaudRate)) (k : Nat)
    (hk : k < cs.length)
    (hpre : ∀ j, (hj : j < k) → vciInitOkAt d (cs.get ⟨j, Nat.lt_trans hj hk⟩))
    (hfail : ¬ vciInitOkAt d (cs.get ⟨k, hk⟩)) :
    (vciChanLoop d cs).result = .error (vciInitFailMsg (cs.get ⟨k, hk⟩).1) ∧
    (vciChanLoop d cs).closeCalls = 1 ∧
    (vciChanLoop d cs).initCalls = (cs.take (k + 1)).map Prod.fst := by
  induction cs generalizing k with
  | nil => exact absurd hk (by simp)
  | cons c rest ih =>
    obtain ⟨ch, br⟩ := c
    cases k with
    | zero =>
      have hf : d.init_status ch (mkVciInitConfig br) ≠ SUCCESS := hfail
      simp [vciChanLoop, CanApp.init_channel, hf, vciInitFailMsg]
    | succ k2 =>
      have hc : d.init_status ch (mkVciInitConfig br) = SUCCESS :=
        hpre 0 (Nat.succ_pos k2)
      have ih2 := ih k2 (Nat.lt_of_succ_lt_succ hk)
        (fun j hj => hpre (j + 1) (Nat.succ_lt_succ hj)) hfail
      simp [vciChanLoop, CanApp.init_channel, hc]
      exact ⟨ih2.1, ih2.2.1, by rw [← List.map_take]; exact ih2.2.2⟩

/-- The join loop of `stop_receiving` delivers the handles in pop order:
it is list reversal, so every stored handle is joined. -/
theorem vciJoinAll_eq_reverse (handles : List VciPollerOut) :
    vciJoinAll handles = handles.reverse := by
  induction handles with
  | nil => rfl
  | cons h t ih => simp [vciJoinAll, ih]

/-- A rate in the ControlCAN supported set always finds a match. -/
theorem vci_from_u32_mem (v : Nat) (h : v ∈ CONTROL_CAN_BAUD_RATES) :
    (VciCanBaudRate.from_u32 v).isSome = true := by
  fin_cases h <;> rfl

/-- A rate outside the ControlCAN supported set never finds a match. -/
theorem vci_from_u32_not_mem (v : Nat) (h : v ∉ CONTROL_CAN_BAUD_RATES) :
    VciCanBaudRate.from_u32 v = none := by
  simp only [CONTROL_CAN_BAUD_RATES, List.mem_cons, List.not_mem_nil, or_false] at h
  push_neg at h
  obtain ⟨h1, h2, h3, h4, h5, h6, h7, h8, h9, h10, h11, h12, h13, h14, h15, h16, h17⟩ := h
  simp [VciCanBaudRate.from_u32, h1, h2, h3, h4, h5, h6, h7, h8, h9, h10, h11, h12,
    h13, h14, h15, h16, h17]

/-- A rate in the PCAN supported set always finds a match. -/
theorem pcan_from_u32_mem (v : Nat) (h : v ∈ PCAN_BAUD_RATES) :
    (PcanBaudRate.from_u32 v).isSome = true := by
  fin_cases h <;> rfl

/-- A rate outside the PCAN supported set never finds a match. -/
theorem pcan_from_u32_not_mem (v : Nat) (h : v ∉ PCAN_BAUD_RATES) :
    PcanBaudRate.from_u32 v = none := by
  simp only [PCAN_BAUD_RATES, List.mem_cons, List.not_mem_nil, or_false] at h
  push_neg at h
  obtain ⟨h1, h2, h3, h4, h5, h6, h7, h8, h9, h10, h11, h12, h13, h14⟩ := h
  simp [PcanBaudRate.from_u32, h1, h2, h3, h4, h5, h6, h7, h8, h9, h10, h11, h12,
    h13, h14]

/-- Claim C1 (amended): when `open_device` succeeds in opening the device
and the per-channel init fails first at index `k`, `open_device` returns
an error naming the failing channel (but not the native status code — see
the counterexample), the driver-level close is invoked exactly once before
returning, `vci_init_can` is issued only for channels up to index `k`, no
board read happens, and `is_can_initialized` is false on return. -/
theorem open_device_init_failure (d : VciDriver) (cs : List (Nat × VciCanBaudRate))
    (init0 : Bool) (k : Nat) (hk : k < cs.length)
    (hopen : d.open_status = SUCCESS)
    (hpre : ∀ j, (hj : j < k) → vciInitOkAt d (cs.get ⟨j, Nat.lt_trans hj hk⟩))
    (hfail : ¬ vciInitOkAt d (cs.get ⟨k, hk⟩)) :
    (CanApp.open_device d cs init0).result =
      .error (vciInitFailMsg (cs.get ⟨k, hk⟩).1) ∧
    (CanApp.open_device d cs init0).closeCalls = 1 ∧
    (CanApp.open_device d cs init0).initCalls = (cs.take (k + 1)).map Prod.fst ∧
    (CanApp.open_device d cs init0).is_can_initialized = false ∧
    (CanApp.open_device d cs init0).boardReadCalls = 0 := by
  have hcl := vciChanLoop_fail_at d cs k hk hpre hfail
  simp [CanApp.open_device, hopen, hcl.1, hcl.2.1, hcl.2.2]

/-- Witness for C1: driver `vciFailAt7` fails init on channel 7; with
channels `[(3, 250K), (7, 1M), (9, 500K)]` the open fails at index 1,
closes once, initializes only channels 3 and 7, and leaves the flag
false. -/
theorem open_device_init_failure_witness :
    (CanApp.open_device vciFailAt7 [(3, .Baud250K), (7, .Baud1M), (9, .Baud500K)]
      false).result = .error (vciInitFailMsg 7) ∧
    (CanApp.open_device vciFailAt7 [(3, .Baud250K), (7, .Baud1M), (9, .Baud500K)]
      false).closeCalls = 1 ∧
    (CanApp.open_device vciFailAt7 [(3, .Baud250K), (7, .Baud1M), (9, .Baud500K)]
      false).initCalls = [3, 7] ∧
    (CanApp.open_device vciFailAt7 [(3, .Baud250K), (7, .Baud1M), (9, .Baud500K)]
      false).is_can_initialized = false ∧
    (CanApp.open_device vciFailAt7 [(3, .Baud250K), (7, .Baud1M), (9, .Baud500K)]
      false).boardReadCalls = 0 :=
  open_device_init_failure vciFailAt7 [(3, .Baud250K), (7, .Baud1M), (9, .Baud500K)]
    false 1 (by decide) (by decide)
    (by
      intro j hj
      have hj0 : j = 0 := by omega
      subst hj0
      show vciInitOkAt vciFailAt7 (3, .Baud250K)
      decide)
    (by
      show ¬ vciInitOkAt vciFailAt7 (7, .Baud1M)
      decide)

/-- Counterexample for C1 as stated: the init-failure error names the
channel only — with the native status code 0 reported by the failing
`vci_init_can`, the returned error text "CAN Ch 5 initialization failed"
does not contain that status code (no "0" occurs in it). -/
theorem open_init_error_lacks_status_code :
    vciInitAlwaysFails.init_status 5 (mkVciInitConfig .Baud250K) = 0 ∧
    (CanApp.open_device vciInitAlwaysFails [(5, .Baud250K)] false).result =
      .error "CAN Ch 5 initialization failed" ∧
    strContains "CAN Ch 5 initialization failed" (toString (0 : Int)) = false := by
  refine ⟨rfl, ?_, by decide⟩
  rfl

/-- Claim C2 (amended): `stop_receiving` clears the running flag and joins
every stored handle (none remains; every poller run is a total function,
so each join completes); every VCI poller whose in-task start succeeded
and whose loop did not abort on an out-of-bounds slice ends its log with
the "stopped receiving" record.  The PCAN poller emits no such record —
see the counterexample. -/
theorem stop_receiving_joins_all (handles : List VciPollerOut) (d : VciDriver)
    (ch : Nat) (iters : List (Int × VciCanObj)) :
    (CanApp.stop_receiving handles).receiving = false ∧
    (CanApp.stop_receiving handles).remaining = 0 ∧
    (CanApp.stop_receiving handles).joined = handles.reverse ∧
    (CanApp.stop_receiving handles).joined.length = handles.length ∧
    (d.start_status ch = SUCCESS → (vciPollerRun d ch iters).oob = false →
      (vciPollerRun d ch iters).log.getLast? = some (vciStoppedMsg ch)) := by
  refine ⟨rfl, rfl, vciJoinAll_eq_reverse handles, ?_, ?_⟩
  · simp [CanApp.stop_receiving, vciJoinAll_eq_reverse]
  · intro hs hoob
    simp [vciPollerRun, hs] at hoob ⊢
    simp [hoob]

/-- Witness for C2: joining two stored handles leaves none and delivers
both; a successfully started poller on channel 2 with one empty receive
iteration ends its log with "CAN Ch 2 stopped receiving". -/
theorem stop_receiving_joins_all_witness :
    (CanApp.stop_receiving [vciPollerRun vciFailAt7 2 [], vciPollerRun vciFailAt7 4 []]
      ).remaining = 0 ∧
    (CanApp.stop_receiving [vciPollerRun vciFailAt7 2 [], vciPollerRun vciFailAt7 4 []]
      ).joined.length = 2 ∧
    (vciPollerRun vciFailAt7 2 [(0, { id := 0, data_len := 0, data := [] })]).log.getLast? =
      some (vciStoppedMsg 2) := by
  have h := stop_receiving_joins_all
    [vciPollerRun vciFailAt7 2 [], vciPollerRun vciFailAt7 4 []]
    vciFailAt7 2 [(0, { id := 0, data_len := 0, data := [] })]
  exact ⟨h.2.1, h.2.2.2.1, h.2.2.2.2 rfl rfl⟩

/-- Counterexample for C2 as stated: the PCAN receiving task (canbus.rs
lines 433-445) exits after the loop without sending any final record — a
stopped session has no "stopped receiving" log record for the PCAN
channel, which did start (its "ready for receiving" record exists). -/
theorem pcan_poller_no_stopped_record :
    pcanPollerRun 0x51 [] =
      { log := [pcanReadyMsg 0x51], data := [], oob := false } ∧
    (pcanPollerRun 0x51 []).log = ["PCAN channel 0x51 ready for receiving"] ∧
    ((pcanPollerRun 0x51 []).log.any fun s => strContains s "stopped receiving") = false := by
  refine ⟨rfl, ?_, by decide⟩
  rfl

/-- Claim C3 (amended): the state `open_device` leaves behind on error
depends on the failure point.  A device-open failure returns the error
without any driver close, leaving the flag as it was.  A channel-init
failure closes the device exactly once and leaves the flag false.  A
board-info read failure (after all channel inits succeeded) returns an
error but invokes no close and leaves `is_can_initialized` true — the
session is not back in the Closed state, contrary to the claim as
stated. -/
theorem open_device_error_states (d : VciDriver) (cs : List (Nat × VciCanBaudRate))
    (init0 : Bool) :
    (d.open_status ≠ SUCCESS →
      (CanApp.open_device d cs init0).result = .error (vciOpenFailMsg d.open_status) ∧
      (CanApp.open_device d cs init0).closeCalls = 0 ∧
      (CanApp.open_device d cs init0).is_can_initialized = init0) ∧
    (∀ e, d.open_status = SUCCESS → (vciChanLoop d cs).result = .error e →
      (CanApp.open_device d cs init0).result = .error e ∧
      (CanApp.open_device d cs init0).closeCalls = 1 ∧
      (CanApp.open_device d cs init0).is_can_initialized = false) ∧
    (d.open_status = SUCCESS → (vciChanLoop d cs).result = .ok () →
      d.board_status ≠ SUCCESS →
      (CanApp.open_device d cs init0).result = .error "Failed to read board info" ∧
      (CanApp.open_device d cs init0).closeCalls = 0 ∧
      (CanApp.open_device d cs init0).is_can_initialized = true) := by
  refine ⟨fun h => ?_, fun e hopen herr => ?_, fun hopen hok hb => ?_⟩
  · simp [CanApp.open_device, h]
  · have hclose := vciChanLoop_error_close d cs e herr
    simp [CanApp.open_device, hopen, herr, hclose]
  · simp [CanApp.open_device, hopen, hok, hb]

/-- Counterexample for C3 as stated: with driver `vciBoardFails` (open and
channel init succeed, board read fails), `open_device` returns an error
yet no driver-level close was invoked and `is_can_initialized` is true on
return. -/
theorem open_board_failure_leaves_open :
    (CanApp.open_device vciBoardFails [(0, .Baud250K)] false).result =
      .error "Failed to read board info" ∧
    (CanApp.open_device vciBoardFails [(0, .Baud250K)] false).closeCalls = 0 ∧
    (CanApp.open_device vciBoardFails [(0, .Baud250K)] false).is_can_initialized = true := by
  refine ⟨rfl, rfl, rfl⟩

/-- Claim C4 (amended): only the VCI family reads board info at the end of
`open_device` — there, a board-read failure after all channel inits
succeeded still makes open return an error.  The PCAN family's open
performs no board-info read at all and returns Ok whenever the channel
initialization succeeded, so the two family implementations do not present
identical behaviour here. -/
theorem open_board_info_contract (d : VciDriver) (cs : List (Nat × VciCanBaudRate))
    (init0 : Bool) (dp : PcanDriver) (pch : Nat) (pbaud : PcanBaudRate) (pinit0 : Bool)
    (hopen : d.open_status = SUCCESS) (hinits : ∀ c ∈ cs, vciInitOkAt d c)
    (hb : d.board_status ≠ SUCCESS)
    (hp : dp.init_status pch pbaud.to_u16 = PCAN_ERROR_OK) :
    (CanApp.open_device d cs init0).result = .error "Failed to read board info" ∧
    (CanApp.open_device d cs init0).boardReadCalls = 1 ∧
    (PcanApp.open_device dp pch pbaud pinit0).result = .ok () ∧
    (PcanApp.open_device dp pch pbaud pinit0).boardReadCalls = 0 := by
  have hok := vciChanLoop_all_ok d cs hinits
  refine ⟨?_, ?_, ?_, ?_⟩ <;>
    simp [CanApp.open_device, PcanApp.open_device, hopen, hok, hb, hp]

/-- Witness for C4: with `vciBoardFails` and one channel, the VCI open
errors after one board read; with `pcanBoardFails` (init succeeds, the
board read would fail with status 5), the PCAN open returns Ok with zero
board reads. -/
theorem open_board_info_contract_witness :
    (CanApp.open_device vciBoardFails [(0, .Baud250K)] false).result =
      .error "Failed to read board info" ∧
    (CanApp.open_device vciBoardFails [(0, .Baud250K)] false).boardReadCalls = 1 ∧
    (PcanApp.open_device pcanBoardFails 0x51 .Baud250K false).result = .ok () ∧
    (PcanApp.open_device pcanBoardFails 0x51 .Baud250K false).boardReadCalls = 0 :=
  open_board_info_contract vciBoardFails [(0, .Baud250K)] false pcanBoardFails 0x51
    .Baud250K false rfl
    (by
      intro c hc
      have hc0 : c = (0, .Baud250K) := by simpa using hc
      subst hc0
      show vciInitOkAt vciBoardFails (0, .Baud250K)
      decide)
    (by decide) rfl

/-- Counterexample for C4 as stated: with driver `pcanBoardFails` the
board-info read fails (`CAN_GetValue` returns 5, as `read_board_info`
on the same driver observes), yet `PcanApp::open_device` returns Ok and
performed no board-info read — it does not report failure as the claim
requires of both families. -/
theorem pcan_open_ignores_board_info :
    pcanBoardFails.get_value_status 0x51 0x00000005 ≠ PCAN_ERROR_OK ∧
    (PcanApp.read_board_info pcanBoardFails 0x51 true).log =
      ["Failed to read PCAN board info"] ∧
    (PcanApp.open_device pcanBoardFails 0x51 .Baud250K false).result = .ok () ∧
    (PcanApp.open_device pcanBoardFails 0x51 .Baud250K false).boardReadCalls = 0 := by
  refine ⟨by decide, rfl, rfl, rfl⟩

/-- Claim C5 (amended): `start_receiving` spawns one task per configured
channel — unconditionally, since the driver-level start call is issued
inside each spawned task.  A task whose start call fails logs the failure
(with the native code) and exits without polling; a task whose start call
succeeds logs the start record and runs the polling loop.  Each task's
behaviour depends only on its own channel, so sibling channels are
unaffected by one channel's failure. -/
theorem start_receiving_per_channel (d : VciDriver)
    (cs : List (Nat × VciCanBaudRate)) (sched : Nat → List (Int × VciCanObj)) (i : Nat) :
    (CanApp.start_receiving d cs sched).length = cs.length ∧
    (CanApp.start_receiving d cs sched).get? i =
      (cs.get? i).map (fun c => vciPollerRun d c.1 (sched c.1)) ∧
    (∀ ch iters, d.start_status ch ≠ SUCCESS →
      vciPollerRun d ch iters =
        { channel := ch
          started := false
          log := [vciStartFailMsg ch (d.start_status ch)]
          data := []
          oob := false }) ∧
    (∀ ch iters, d.start_status ch = SUCCESS →
      (vciPollerRun d ch iters).started = true ∧
      (vciPollerRun d ch iters).log.head? = some (vciStartedMsg ch)) := by
  refine ⟨by simp [CanApp.start_receiving], ?_, fun ch iters h => ?_, fun ch iters h => ?_⟩
  · simp [CanApp.start_receiving, List.getElem?_map]
  · simp [vciPollerRun, h]
  · simp [vciPollerRun, h]

/-- Counterexample for C5 as stated: with driver `vciStartFailsAt0`
(start fails on channel 0, succeeds on channel 1) two tasks are spawned —
one per configured channel — even though only channel 1's start call
succeeded; the channel-0 task logged the failure and sent no data, the
channel-1 task proceeded normally. -/
theorem task_spawned_despite_start_failure :
    (CanApp.start_receiving vciStartFailsAt0 [(0, .Baud250K), (1, .Baud1M)]
      fun _ => []).length = 2 ∧
    (CanApp.start_receiving vciStartFailsAt0 [(0, .Baud250K), (1, .Baud1M)]
      fun _ => []).get? 0 =
      some { channel := 0
             started := false
             log := [vciStartFailMsg 0 0]
             data := []
             oob := false } ∧
    (CanApp.start_receiving vciStartFailsAt0 [(0, .Baud250K), (1, .Baud1M)]
      fun _ => []).get? 1 =
      some { channel := 1
             started := true
             log := [vciStartedMsg 1, vciStoppedMsg 1]
             data := []
             oob := false } := by
  refine ⟨rfl, rfl, rfl⟩

/-- Claim C6: `close_device` is idempotent for both families — each call
unconditionally asks the driver to close, sends exactly one status log
record (so two calls in a row produce two records), never fails (it is a
total function returning no error), and leaves `is_can_initialized` false
after each call, whatever the flag was before. -/
theorem close_device_idempotent (dv : VciDriver) (dp : PcanDriver) (ch : Nat)
    (init0 : Bool) :
    (CanApp.close_device dv init0).log = [vciCloseMsg dv.close_status] ∧
    (CanApp.close_device dv (CanApp.close_device dv init0).is_can_initialized).log =
      [vciCloseMsg dv.close_status] ∧
    ((CanApp.close_device dv init0).log ++
      (CanApp.close_device dv (CanApp.close_device dv init0).is_can_initialized).log
      ).length = 2 ∧
    (CanApp.close_device dv init0).is_can_initialized = false ∧
    (CanApp.close_device dv (CanApp.close_device dv init0).is_can_initialized
      ).is_can_initialized = false ∧
    (PcanApp.close_device dp ch init0).log =
      ["PCAN device closed, status: " ++ toString (dp.uninit_status ch)] ∧
    ((PcanApp.close_device dp ch init0).log ++
      (PcanApp.close_device dp ch (PcanApp.close_device dp ch init0).is_can_initialized
        ).log).length = 2 ∧
    (PcanApp.close_device dp ch init0).is_can_initialized = false ∧
    (PcanApp.close_device dp ch (PcanApp.close_device dp ch init0).is_can_initialized
      ).is_can_initialized = false := by
  refine ⟨rfl, rfl, rfl, rfl, rfl, rfl, rfl, rfl, rfl⟩

/-- Claim C7: baud-rate lookup is total and deterministic for both adapter
families — `from_u32` is a function (called twice on the same input it
returns the same rate, which `to_timing_values` maps to one fixed encoded
pair), it returns a match exactly for the numeric inputs in the supported
set (the GUI's rate tables), and `none` for every input outside it. -/
theorem baud_lookup_total_deterministic (v : Nat) :
    ((VciCanBaudRate.from_u32 v).isSome ↔ v ∈ CONTROL_CAN_BAUD_RATES) ∧
    ((PcanBaudRate.from_u32 v).isSome ↔ v ∈ PCAN_BAUD_RATES) ∧
    (∀ r1 r2, VciCanBaudRate.from_u32 v = some r1 → VciCanBaudRate.from_u32 v = some r2 →
      r1 = r2 ∧ r1.to_timing_values = r2.to_timing_values) ∧
    (∀ r1 r2, PcanBaudRate.from_u32 v = some r1 → PcanBaudRate.from_u32 v = some r2 →
      r1 = r2 ∧ r1.to_u16 = r2.to_u16) := by
  refine ⟨?_, ?_, ?_, ?_⟩
  · constructor
    · intro h
      by_contra hm
      rw [vci_from_u32_not_mem v hm] at h
      simp at h
    · exact vci_from_u32_mem v
  · constructor
    · intro h
      by_contra hm
      rw [pcan_from_u32_not_mem v hm] at h
      simp at h
    · exact pcan_from_u32_mem v
  · intro r1 r2 h1 h2
    rw [h1] at h2
    cases h2
    exact ⟨rfl, rfl⟩
  · intro r1 r2 h1 h2
    rw [h1] at h2
    cases h2
    exact ⟨rfl, rfl⟩

/-- Claim C8 (amended): an unmatched caller-supplied numeric baud rate is
silently substituted, and the substituted default is not a single one: the
ControlCAN channel-1 slot falls back to 250 kbit/s, the channel-2 slot to
1 Mbit/s, the PCAN slot to 250 kbit/s, and `start_can` emits no log record
about the fallback. -/
theorem baud_fallback_silent (b bp : Nat)
    (h : VciCanBaudRate.from_u32 b = none) (hp : PcanBaudRate.from_u32 bp = none) :
    resolveControlCanBaud1 b = .Baud250K ∧
    resolveControlCanBaud2 b = .Baud1M ∧
    resolvePcanBaud bp = .Baud250K ∧
    (CanGui.start_can_channels 0 b 1 b).1 = [(0, .Baud250K), (1, .Baud1M)] ∧
    (CanGui.start_can_channels 0 b 1 b).2 = [] := by
  simp [resolveControlCanBaud1, resolveControlCanBaud2, resolvePcanBaud,
    CanGui.start_can_channels, h, hp]

/-- Witness for C8: 123 has no entry in either table; it resolves to
250 kbit/s in the channel-1 slot, 1 Mbit/s in the channel-2 slot and
250 kbit/s for PCAN, with no fallback log record. -/
theorem baud_fallback_silent_witness :
    resolveControlCanBaud1 123 = .Baud250K ∧
    resolveControlCanBaud2 123 = .Baud1M ∧
    resolvePcanBaud 123 = .Baud250K ∧
    (CanGui.start_can_channels 0 123 1 123).1 = [(0, .Baud250K), (1, .Baud1M)] ∧
    (CanGui.start_can_channels 0 123 1 123).2 = [] :=
  baud_fallback_silent 123 123 rfl rfl

/-- Counterexample for C8 as stated: the same unmatched input 123 is given
two different defaults — 250 kbit/s in the channel-1 slot but 1 Mbit/s in
the channel-2 slot — and the channel-list construction of `start_can`
emits no log record stating that a fallback occurred. -/
theorem fallback_defaults_differ :
    VciCanBaudRate.from_u32 123 = none ∧
    resolveControlCanBaud1 123 ≠ resolveControlCanBaud2 123 ∧
    (CanGui.start_can_channels 0 123 1 123).1 = [(0, .Baud250K), (1, .Baud1M)] ∧
    (CanGui.start_can_channels 0 123 1 123).2 = [] := by
  refine ⟨rfl, by decide, rfl, rfl⟩

/-- Claim C9 (amended): for both families, `read_board_info` on an
uninitialized session sends exactly one error record, performs no native
read and changes no state.  On an initialized session it performs the
native read and logs: for the VCI family the serial number and firmware
version on success or "Read board failed" on failure; for the PCAN family
the API version string on success (not a serial number or firmware
version — see the counterexample) or "Failed to read PCAN board info" on
failure. -/
theorem read_board_info_gating (d : VciDriver) (dp : PcanDriver) (ch : Nat) :
    (CanApp.read_board_info d false).log =
      ["Error: CAN not initialized; cannot read board info"] ∧
    (CanApp.read_board_info d false).readCalls = 0 ∧
    (CanApp.read_board_info d false).is_can_initialized = false ∧
    (PcanApp.read_board_info dp ch false).log =
      ["Error: PCAN device not initialized; cannot read board info"] ∧
    (PcanApp.read_board_info dp ch false).readCalls = 0 ∧
    (PcanApp.read_board_info dp ch false).is_can_initialized = false ∧
    (d.board_status = SUCCESS →
      (CanApp.read_board_info d true).log = [vciBoardInfoMsg d.board_serial d.board_fw] ∧
      (CanApp.read_board_info d true).readCalls = 1) ∧
    (d.board_status ≠ SUCCESS →
      (CanApp.read_board_info d true).log = ["Read board failed"] ∧
      (CanApp.read_board_info d true).readCalls = 1) ∧
    (dp.get_value_status ch 0x00000005 = PCAN_ERROR_OK →
      (PcanApp.read_board_info dp ch true).log =
        ["PCAN API Version: " ++ dp.api_version] ∧
      (PcanApp.read_board_info dp ch true).readCalls = 1) ∧
    (dp.get_value_status ch 0x00000005 ≠ PCAN_ERROR_OK →
      (PcanApp.read_board_info dp ch true).log = ["Failed to read PCAN board info"] ∧
      (PcanApp.read_board_info dp ch true).readCalls = 1) := by
  refine ⟨rfl, rfl, rfl, rfl, rfl, rfl, fun h => ?_, fun h => ?_, fun h => ?_, fun h => ?_⟩
  · simp [CanApp.read_board_info, h]
  · simp [CanApp.read_board_info, h]
  · simp [PcanApp.read_board_info, h]
  · simp [PcanApp.read_board_info, h]

/-- Counterexample for C9 as stated: with driver `pcanAllOk` (initialized,
native read succeeds, API version "4.4.0"), the PCAN `read_board_info`
logs "PCAN API Version: 4.4.0" — a record that mentions neither a serial
number nor a firmware version. -/
theorem pcan_board_info_logs_api_version :
    (PcanApp.read_board_info pcanAllOk 0x51 true).log = ["PCAN API Version: 4.4.0"] ∧
    ((PcanApp.read_board_info pcanAllOk 0x51 true).log.any fun s =>
      strContains s "Serial" || strContains s "Firmware") = false := by
  refine ⟨rfl, by decide⟩

/-- Claim C10: the payload slice `data[..data_len]` a poller takes from a
driver-filled frame struct (whose `data` array has the fixed size 8) is in
bounds — the record is formatted without a panic — exactly when the
driver-reported length field is at most 8; for a reported length greater
than 8 the slicing is out of bounds, for both frame layouts. -/
theorem poller_slice_in_bounds (channel : Nat) (obj : VciCanObj) (msg : PcanMsg)
    (hv : obj.data.length = 8) (hp : msg.data.length = 8) :
    (obj.data_len ≤ 8 → (formatVciFrame channel obj).isSome = true) ∧
    (8 < obj.data_len → formatVciFrame channel obj = none) ∧
    (msg.len ≤ 8 → (formatPcanFrame msg).isSome = true) ∧
    (8 < msg.len → formatPcanFrame msg = none) := by
  refine ⟨fun h => ?_, fun h => ?_, fun h => ?_, fun h => ?_⟩ <;>
    simp [formatVciFrame, formatPcanFrame, sliceData, hv, hp] <;> omega

/-- Witness for C10: a frame with length 3 over an 8-byte array formats, a
frame with reported length 9 is out of bounds; likewise for the PCAN
layout with lengths 2 and 12. -/
theorem poller_slice_in_bounds_witness :
    (formatVciFrame 0 vciFrameLen3).isSome = true ∧
    formatVciFrame 0 vciFrameLen9 = none ∧
    (formatPcanFrame pcanFrameLen2).isSome = true ∧
    formatPcanFrame pcanFrameLen12 = none := by
  refine ⟨?_, ?_, ?_, ?_⟩
  · exact (poller_slice_in_bounds 0 vciFrameLen3 pcanFrameLen2 rfl rfl).1 (by decide)
  · exact (poller_slice_in_bounds 0 vciFrameLen9 pcanFrameLen2 rfl rfl).2.1 (by decide)
  · exact (poller_slice_in_bounds 0 vciFrameLen3 pcanFrameLen2 rfl rfl).2.2.1 (by decide)
  · exact (poller_slice_in_bounds 0 vciFrameLen3 pcanFrameLen12 rfl rfl).2.2.2 (by decide)

end UsbCanTool
